import Mathlib

/-!
Verification development for the base-org/withdrawer repository.

The development shallowly embeds the withdrawal lifecycle logic of the
repository: the receipt classification (TxBlock), the provability checks of
the legacy and fault-proof withdrawers, the proof and finalization record
queries against the portal contract, the legacy finalize time gate, the
confirmation poll loop (WaitForConfirmation), the signer construction
(CreateSigner), the CLI flag validation of main, and the per-run driver
(processWithdrawal).

Chain access is modelled by state records: every contract read or RPC lookup
the code performs becomes a field of the state, and the embedded functions
read exactly the fields the source reads.  Machine integers of the source
(uint64, big.Int block numbers, timestamps) are modelled as Nat; the values
involved are far below 2^64, and none of the source operations wrap.
Hashes and addresses are modelled as Nat.  Errors produced with fmt.Errorf
are modelled as inductive constructors carrying the format arguments, so a
statement that an error message contains a number is a statement that the
corresponding constructor carries it.
-/

/-- Receipt status as in go-ethereum core/types: successful or failed. -/
inductive ReceiptStatus
  | successful
  | failed
deriving DecidableEq, Repr

/-- A transaction receipt, reduced to the fields the repository reads:
the status and the block number of inclusion. -/
structure Receipt where
  status : ReceiptStatus
  blockNumber : Nat
deriving DecidableEq, Repr

/-- Result of a TransactionReceipt RPC lookup: the distinguished
ethereum.NotFound outcome, any other RPC error, or a receipt. -/
inductive ReceiptLookup
  | notFound
  | rpcFailure (code : Nat)
  | found (r : Receipt)
deriving DecidableEq, Repr

/-- The fields of a parsed MessagePassed event, as consumed by
withdrawals.WithdrawalHash. -/
structure MessagePassedEvent where
  nonce : Nat
  sender : Nat
  target : Nat
  value : Nat
  gasLimit : Nat
  msgData : List Nat
deriving DecidableEq, Repr

/-- Encoding of a list of naturals into a natural, used by the modelled
withdrawal fingerprint. -/
def encodeNatList : List Nat → Nat
  | [] => 0
  | x :: xs => Nat.pair x (encodeNatList xs) + 1

/-- Withdrawal fingerprint: the deterministic hash of the message-passed
event fields.  The source computes keccak over the ABI encoding of the
fields (withdrawals.WithdrawalHash); the model replaces keccak by a
deterministic pairing of the same fields. -/
def withdrawalHash (ev : MessagePassedEvent) : Nat :=
  Nat.pair ev.nonce (Nat.pair ev.sender (Nat.pair ev.target
    (Nat.pair ev.value (Nat.pair ev.gasLimit (encodeNatList ev.msgData)))))

/-- Errors produced by TxBlock (withdraw/utils.go): the receipt lookup error
is passed through, and a receipt with non-success status yields the
"unsuccessful withdrawal receipt status" error. -/
inductive TxErr
  | receiptNotFound
  | rpcFailure (code : Nat)
  | unsuccessfulReceipt
deriving DecidableEq, Repr

/-- TxBlock from withdraw/utils.go lines 17 to 28: look up the receipt of
the L2 withdrawal transaction; pass lookup errors through; fail with the
unsuccessful-status error if the receipt status is not successful; otherwise
return the block number of inclusion. -/
def TxBlock : ReceiptLookup → Except TxErr Nat
  | .notFound => .error .receiptNotFound
  | .rpcFailure code => .error (.rpcFailure code)
  | .found r =>
      if r.status ≠ .successful then .error .unsuccessfulReceipt
      else .ok r.blockNumber

/-- Proof record of the legacy portal (OptimismPortal.provenWithdrawals),
keyed by the withdrawal hash alone: the L1 timestamp at which the prove
transaction was confirmed, and the output index proven against.  A zero
timestamp means not yet proven. -/
structure LegacyProvenRecord where
  timestamp : Nat
  l2OutputIndex : Nat
deriving DecidableEq, Repr

/-- Chain state visible to the legacy Withdrawer: the fields are exactly
the values the source obtains from its L1 and L2 clients and from the
L2OutputOracle and OptimismPortal contract bindings. -/
structure LegacyState where
  l2TxHash : Nat
  receipt : ReceiptLookup
  msgPassedEvent : Option MessagePassedEvent
  headerTime : Nat → Nat
  latestOutputBlock : Nat
  submissionInterval : Nat
  l2BlockTime : Nat
  finalizationPeriodSeconds : Nat
  l1HeadNumber : Nat
  l1HeadTime : Nat
  provenWithdrawals : Nat → LegacyProvenRecord
  finalizedWithdrawals : Nat → Bool
  proofParamsOk : Bool

/-- Errors of the legacy withdrawer operations.  Constructors carry the
format arguments of the corresponding fmt.Errorf messages. -/
inductive LegacyErr
  | queryWithdrawalTxBlock (e : TxErr)
  | notProvableYet (outputBlock wdBlock waitSeconds : Nat)
  | receiptErr (e : TxErr)
  | parseMessagePassed
  | proofParams
deriving DecidableEq, Repr

namespace Withdrawer

/-- Withdrawer.CheckIfProvable: queries the submission interval, the L2
block time and the latest proposed block from the oracle, queries the
withdrawal block via TxBlock, and fails with the not-provable-yet error,
whose message carries the latest output block, the withdrawal block and the
estimated wait (submission interval times L2 block time, in seconds), when
the latest output block is below the withdrawal block. -/
def CheckIfProvable (s : LegacyState) : Except LegacyErr Unit :=
  match TxBlock s.receipt with
  | .error e => .error (.queryWithdrawalTxBlock e)
  | .ok l2WithdrawalBlock =>
      if s.latestOutputBlock < l2WithdrawalBlock then
        .error (.notProvableYet s.latestOutputBlock l2WithdrawalBlock
          (s.submissionInterval * s.l2BlockTime))
      else .ok ()

/-- Withdrawer.IsProofFinalized: reads Portal.FinalizedWithdrawals at the
L2 transaction hash of the withdrawal. -/
def IsProofFinalized (s : LegacyState) : Bool :=
  s.finalizedWithdrawals s.l2TxHash

/-- Withdrawer.GetProvenWithdrawal: looks up the receipt, parses the
MessagePassed event, computes the withdrawal hash, and reads
Portal.ProvenWithdrawals at that hash. -/
def GetProvenWithdrawal (s : LegacyState) : Except LegacyErr LegacyProvenRecord :=
  match s.receipt with
  | .notFound => .error (.receiptErr .receiptNotFound)
  | .rpcFailure code => .error (.receiptErr (.rpcFailure code))
  | .found _ =>
      match s.msgPassedEvent with
      | none => .error .parseMessagePassed
      | some ev => .ok (s.provenWithdrawals (withdrawalHash ev))

end Withdrawer

/-- Outcome of the legacy finalize operation.  The two stopped constructors
correspond to the source printing a message and returning nil (no error, no
transaction); their payloads are the format arguments of the printed
message.  builtFinalizeTx marks that the finalize transaction was
constructed and handed to the confirmation wait. -/
inductive FinalizeOutcome
  | errReceipt (e : TxErr)
  | stoppedOutputNotOld (outputBlock wdBlock : Nat)
  | stoppedTimeLock (wdBlock wdBlockTime outputBlock outputBlockTime
      l1HeadNumber l1HeadTime period : Nat)
  | errProofParams
  | builtFinalizeTx
deriving DecidableEq, Repr

/-- CompleteWithdrawal from withdraw/withdraw.go lines 114 to 196, up to the
construction of the finalize transaction: look up the receipt and require
success status; read the header of the withdrawal block and of the latest
output block; print and return nil if the latest output block is below the
withdrawal block; print and return nil if the withdrawal block time plus the
finalization period is at least the L1 head time; otherwise derive the proof
parameters and build the finalize transaction. -/
def CompleteWithdrawal (s : LegacyState) (finalizationPeriod : Nat) : FinalizeOutcome :=
  match s.receipt with
  | .notFound => .errReceipt .receiptNotFound
  | .rpcFailure code => .errReceipt (.rpcFailure code)
  | .found r =>
      if r.status ≠ .successful then .errReceipt .unsuccessfulReceipt
      else
        let wdTime := s.headerTime r.blockNumber
        let outTime := s.headerTime s.latestOutputBlock
        if s.latestOutputBlock < r.blockNumber then
          .stoppedOutputNotOld s.latestOutputBlock r.blockNumber
        else if s.l1HeadTime ≤ wdTime + finalizationPeriod then
          .stoppedTimeLock r.blockNumber wdTime s.latestOutputBlock outTime
            s.l1HeadNumber s.l1HeadTime finalizationPeriod
        else if s.proofParamsOk then .builtFinalizeTx
        else .errProofParams

/-- Withdrawer.FinalizeWithdrawal: identical body to CompleteWithdrawal
except that the finalization period is read from the oracle binding held by
the Withdrawer instead of being passed by the caller. -/
def Withdrawer.FinalizeWithdrawal (s : LegacyState) : FinalizeOutcome :=
  CompleteWithdrawal s s.finalizationPeriodSeconds

/-- Proof record of the fault-proof portal (OptimismPortal2.provenWithdrawals),
stored per (withdrawal hash, submitter address): the dispute game proxy the
withdrawal was proven against and the L1 timestamp of the prove
transaction.  A zero timestamp means not yet proven under that submitter. -/
structure FPProvenRecord where
  disputeGameProxy : Nat
  timestamp : Nat
deriving DecidableEq, Repr

/-- Chain state visible to the fault-proof FPWithdrawer: the fields are the
values the source obtains from its clients and from the OptimismPortal2 and
DisputeGameFactory bindings.  latestGameL2Block is the L2 block number
encoded in the extra data of the most recently created dispute game
(withdrawals.FindLatestGame); checkWithdrawal is the on-chain
portal predicate consulted before finalization, keyed by withdrawal hash
and submitter; optsFrom is the From field of the transactor options. -/
structure FPState where
  l2TxHash : Nat
  receipt : ReceiptLookup
  msgPassedEvent : Option MessagePassedEvent
  latestGameL2Block : Nat
  provenWithdrawals : Nat → Nat → FPProvenRecord
  finalizedWithdrawals : Nat → Bool
  checkWithdrawal : Nat → Nat → Bool
  optsFrom : Nat
  proofParamsOk : Bool

/-- Errors of the fault-proof withdrawer operations. -/
inductive FPErr
  | queryWithdrawalTxBlock (e : TxErr)
  | notProvableYet (latestGameBlock wdBlock : Nat)
  | receiptErr (e : TxErr)
  | parseMessagePassed
  | checkWithdrawalReverted
  | proofParams
deriving DecidableEq, Repr

namespace FPWithdrawer

/-- FPWithdrawer.CheckIfProvable: queries the withdrawal block via txBlock,
finds the most recently created dispute game, and fails with the
not-provable-yet error, whose message carries the latest game block and the
withdrawal block, when the latest game block is below the withdrawal
block. -/
def CheckIfProvable (s : FPState) : Except FPErr Unit :=
  match TxBlock s.receipt with
  | .error e => .error (.queryWithdrawalTxBlock e)
  | .ok l2WithdrawalBlock =>
      if s.latestGameL2Block < l2WithdrawalBlock then
        .error (.notProvableYet s.latestGameL2Block l2WithdrawalBlock)
      else .ok ()

/-- FPWithdrawer.getWithdrawalHash: look up the receipt, parse the
MessagePassed event and compute the withdrawal hash. -/
def getWithdrawalHash (s : FPState) : Except FPErr Nat :=
  match s.receipt with
  | .notFound => .error (.receiptErr .receiptNotFound)
  | .rpcFailure code => .error (.receiptErr (.rpcFailure code))
  | .found _ =>
      match s.msgPassedEvent with
      | none => .error .parseMessagePassed
      | some ev => .ok (withdrawalHash ev)

/-- FPWithdrawer.IsProofFinalized: reads Portal.FinalizedWithdrawals at the
L2 transaction hash of the withdrawal. -/
def IsProofFinalized (s : FPState) : Bool :=
  s.finalizedWithdrawals s.l2TxHash

/-- FPWithdrawer.GetProvenWithdrawalTime: computes the withdrawal hash and
reads the proof record of the portal at the pair of that hash and the From
address of the transactor options, returning its timestamp. -/
def GetProvenWithdrawalTime (s : FPState) : Except FPErr Nat :=
  match getWithdrawalHash s with
  | .error e => .error e
  | .ok hash => .ok (s.provenWithdrawals hash s.optsFrom).timestamp

end FPWithdrawer

/-- Outcome of the fault-proof finalize operation: an error, or the
finalize transaction was constructed and handed to the confirmation
wait. -/
inductive FPFinalizeOutcome
  | err (e : FPErr)
  | builtFinalizeTx
deriving DecidableEq, Repr

/-- FPWithdrawer.FinalizeWithdrawal: computes the withdrawal hash, consults
Portal.CheckWithdrawal at the pair of that hash and the From address of the
transactor options, surfaces its revert as an error, then derives the proof
parameters and builds the finalize transaction. -/
def FPWithdrawer.FinalizeWithdrawal (s : FPState) : FPFinalizeOutcome :=
  match FPWithdrawer.getWithdrawalHash s with
  | .error e => .err e
  | .ok hash =>
      if s.checkWithdrawal hash s.optsFrom = false then .err .checkWithdrawalReverted
      else if s.proofParamsOk then .builtFinalizeTx
      else .err .proofParams

/-- Error reported by ctx.Err() of a Go context: Canceled when the context
was cancelled before its deadline, DeadlineExceeded when the deadline
fired. -/
inductive CtxErr
  | canceled
  | deadlineExceeded
deriving DecidableEq, Repr

/-- A Go context carrying a deadline (context.WithTimeout) and an optional
external cancellation time. -/
structure Ctx where
  deadline : Nat
  cancelAt : Option Nat
deriving DecidableEq, Repr

/-- The time at which the context becomes done: its deadline, or the
cancellation time if cancellation comes first. -/
def Ctx.doneAt (c : Ctx) : Nat :=
  match c.cancelAt with
  | none => c.deadline
  | some t => min t c.deadline

/-- The error ctx.Err() reports once the context is done: canceled when the
cancellation happened strictly before the deadline, deadline exceeded
otherwise. -/
def Ctx.ctxErr (c : Ctx) : CtxErr :=
  match c.cancelAt with
  | none => .deadlineExceeded
  | some t => if t < c.deadline then .canceled else .deadlineExceeded

/-- Result of the confirmation poll loop: success, the context error on
cancellation or deadline, a receipt lookup error returned immediately, or
the unsuccessful-receipt-status error.  Every constructor other than
confirmed corresponds to the Go function returning a non-nil error. -/
inductive ConfirmResult
  | confirmed
  | ctxDone (e : CtxErr)
  | lookupFailure (code : Nat)
  | unsuccessfulStatus
deriving DecidableEq, Repr

/-- WaitForConfirmation from withdraw/utils.go lines 30 to 50: poll the
receipt of the submitted transaction.  On the distinguished not-found
outcome, wait on the context and a five second timer and retry; taking the
context branch returns ctx.Err().  Any other lookup error is returned
immediately.  A receipt with non-success status returns the
unsuccessful-status error; a successful receipt ends the loop.  Time is
modelled by the poll instant t; the model resolves the select
deterministically in favour of the context when the context becomes done
within the five second wait. -/
def WaitForConfirmation (lookup : Nat → ReceiptLookup) (c : Ctx) (t : Nat) :
    ConfirmResult :=
  match lookup t with
  | .notFound =>
      if h : c.doneAt ≤ t + 5 then .ctxDone c.ctxErr
      else WaitForConfirmation lookup c (t + 5)
  | .rpcFailure code => .lookupFailure code
  | .found r =>
      if r.status ≠ .successful then .unsuccessfulStatus
      else .confirmed
termination_by c.doneAt - t
decreasing_by simp_wf; omega

/-- The confirmation deadline used by every submission site:
context.WithTimeout(ctx, 5*time.Minute), in seconds. -/
def confirmDeadlineSeconds : Nat := 300

/-- The call pattern of ProveWithdrawal and FinalizeWithdrawal around the
confirmation loop: wrap the run context in a five minute timeout starting
at the submission instant t0 and run WaitForConfirmation under it. -/
def submitAndWait (lookup : Nat → ReceiptLookup) (parentCancelAt : Option Nat)
    (t0 : Nat) : ConfirmResult :=
  WaitForConfirmation lookup
    { deadline := t0 + confirmDeadlineSeconds, cancelAt := parentCancelAt } t0

/-- External collaborators of CreateSigner (signer/signer.go): the parsers
and devices the function consults.  Each field models one external call:
crypto.HexToECDSA, accounts.ParseDerivationPath, the mnemonic key
derivation, usbwallet.NewLedgerHub, wallet.Open and wallet.Derive. -/
structure SignerEnv where
  hexToECDSA : String → Option Nat
  parseDerivationPath : String → Option (List Nat)
  deriveFromMnemonic : String → List Nat → Option Nat
  ledgerHubOk : Bool
  ledgerWallets : List Nat
  walletOpen : Nat → Bool
  walletDerive : Nat → List Nat → Option Nat

/-- Errors of CreateSigner, one per failure path of signer/signer.go. -/
inductive SignerErr
  | parsePrivateKey
  | parseHdPath
  | deriveMnemonic
  | ledgerHub
  | noLedgers
  | multipleLedgers
  | ledgerOpen
  | ledgerDerive
deriving DecidableEq, Repr

/-- The signer CreateSigner returns: a software key parsed from the private
key flag, a software key derived from the mnemonic, or a hardware wallet
account. -/
inductive SignerValue
  | ecdsaFromPrivateKey (k : Nat)
  | ecdsaFromMnemonic (k : Nat)
  | ledgerAccount (w : Nat) (acct : Nat)
deriving DecidableEq, Repr

/-- CreateSigner from signer/signer.go lines 25 to 70: if the private key
flag is non-empty, parse it and return the software signer without touching
the derivation path or the mnemonic; otherwise parse the derivation path,
then derive from the mnemonic if non-empty; otherwise assume a ledger:
start the hub, require exactly one connected wallet, open it and derive the
account. -/
def CreateSigner (env : SignerEnv) (privateKey mnemonic hdPath : String) :
    Except SignerErr SignerValue :=
  if privateKey ≠ "" then
    match env.hexToECDSA privateKey with
    | none => .error .parsePrivateKey
    | some k => .ok (.ecdsaFromPrivateKey k)
  else
    match env.parseDerivationPath hdPath with
    | none => .error .parseHdPath
    | some path =>
      if mnemonic ≠ "" then
        match env.deriveFromMnemonic mnemonic path with
        | none => .error .deriveMnemonic
        | some k => .ok (.ecdsaFromMnemonic k)
      else
        if env.ledgerHubOk = false then .error .ledgerHub
        else
          match env.ledgerWallets with
          | [] => .error .noLedgers
          | [w] =>
              if env.walletOpen w = false then .error .ledgerOpen
              else
                match env.walletDerive w path with
                | none => .error .ledgerDerive
                | some acct => .ok (.ledgerAccount w acct)
          | _ :: _ :: _ => .error .multipleLedgers

/-- A network preset of main: the L2 RPC endpoint, the portal and oracle
addresses, the dispute game factory address and the protocol variant
flag. -/
structure Network where
  l2RPC : String
  portalAddress : String
  l2OOAddress : String
  disputeGameFactory : String
  faultProofs : Bool
deriving DecidableEq, Repr

/-- The fixed network preset table of main. -/
def networks : List (String × Network) :=
  [("base-mainnet",
    { l2RPC := "https://mainnet.base.org",
      portalAddress := "0x49048044D57e1C92A77f79988d21Fa8fAF74E97e",
      l2OOAddress := "0x56315b90c40730925ec5485cf004d835058518A0",
      disputeGameFactory := "0x0000000000000000000000000000000000000000",
      faultProofs := false }),
   ("base-sepolia",
    { l2RPC := "https://sepolia.base.org",
      portalAddress := "0x49f53e41452C74589E85cA1677426Ba426459e85",
      l2OOAddress := "0x0000000000000000000000000000000000000000",
      disputeGameFactory := "0xd6E6dBf4F7EA0ac412fD8b65ED297e64BB7a06E1",
      faultProofs := true }),
   ("op-mainnet",
    { l2RPC := "https://mainnet.optimism.io",
      portalAddress := "0xbEb5Fc579115071764c7423A4f12eDde41f106Ed",
      l2OOAddress := "0x0000000000000000000000000000000000000000",
      disputeGameFactory := "0xe5965Ab5962eDc7477C8520243A95517CD252fA9",
      faultProofs := true }),
   ("op-sepolia",
    { l2RPC := "https://sepolia.optimism.io",
      portalAddress := "0x16Fc5058F25648194471939df75CF27A2fdC48BC",
      l2OOAddress := "0x0000000000000000000000000000000000000000",
      disputeGameFactory := "0x05F9613aDB30026FFd634f38e5C4dFd30a197Fa1",
      faultProofs := true })]

/-- The parsed command line flags of main. -/
structure Flags where
  rpc : String
  network : String
  l2Rpc : String
  faultProofs : Bool
  portalAddress : String
  l2ooAddress : String
  dgfAddress : String
  withdrawal : String
  privateKey : String
  ledger : Bool
  mnemonic : String
  hdPath : String
deriving DecidableEq, Repr

/-- Fatal configuration errors of main, one per log.Crit call of the
validation phase. -/
inductive FatalErr
  | unknownNetwork
  | faultProofsNotSupported
  | faultProofsRequired
  | missingL2Rpc
  | missingPortalAddress
  | missingL2ooAddress
  | missingDgfAddress
  | missingRpc
  | missingWithdrawal
  | signerOptions
deriving DecidableEq, Repr

/-- The number of signing methods selected: a non-empty private key, the
ledger flag, and a non-empty mnemonic each count one. -/
def signerOptionsCount (privateKey : String) (ledger : Bool) (mnemonic : String) :
    Nat :=
  (if privateKey ≠ "" then 1 else 0) + (if ledger then 1 else 0) +
    (if mnemonic ≠ "" then 1 else 0)

/-- The validation phase of main, from the network lookup through the
signer options check: resolve the network preset; require the fault proofs
flag to match the preset; process the custom override flag groups for the
selected variant; require the rpc and withdrawal flags; require exactly one
signing method.  Returns the effective network on success. -/
def mainValidate (f : Flags) : Except FatalErr Network :=
  match networks.lookup f.network with
  | none => .error .unknownNetwork
  | some n =>
      if f.faultProofs ∧ n.faultProofs = false then .error .faultProofsNotSupported
      else if ¬ f.faultProofs ∧ n.faultProofs = true then .error .faultProofsRequired
      else
        let custom : Except FatalErr Network :=
          if ¬ f.faultProofs ∧ (f.l2Rpc ≠ "" ∨ f.portalAddress ≠ "" ∨ f.l2ooAddress ≠ "") then
            if f.l2Rpc = "" then .error .missingL2Rpc
            else if f.portalAddress = "" then .error .missingPortalAddress
            else if f.l2ooAddress = "" then .error .missingL2ooAddress
            else .ok { l2RPC := f.l2Rpc, portalAddress := f.portalAddress,
                       l2OOAddress := f.l2ooAddress, disputeGameFactory := "",
                       faultProofs := f.faultProofs }
          else if f.faultProofs ∧ (f.l2Rpc ≠ "" ∨ f.dgfAddress ≠ "" ∨ f.portalAddress ≠ "") then
            if f.l2Rpc = "" then .error .missingL2Rpc
            else if f.dgfAddress = "" then .error .missingDgfAddress
            else if f.portalAddress = "" then .error .missingPortalAddress
            else .ok { l2RPC := f.l2Rpc, portalAddress := f.portalAddress,
                       l2OOAddress := "", disputeGameFactory := f.dgfAddress,
                       faultProofs := f.faultProofs }
          else .ok n
        match custom with
        | .error e => .error e
        | .ok n2 =>
            if f.rpc = "" then .error .missingRpc
            else if f.withdrawal = "" then .error .missingWithdrawal
            else if signerOptionsCount f.privateKey f.ledger f.mnemonic ≠ 1 then
              .error .signerOptions
            else .ok n2

/-- Chain interactions of main after validation and signer construction:
dialing the L1 client, querying the chain id and the pending nonce, and
dialing the L2 client; runWithdrawer stands for the contract binding and
withdrawal processing that follow. -/
inductive ChainEffect
  | dialL1
  | queryChainID
  | queryPendingNonce
  | dialL2
  | runWithdrawer
deriving DecidableEq, Repr

/-- Phase reached by a run of main: fatal during flag validation, fatal
during signer construction, or the chain phase with the effective
network. -/
inductive MainPhase
  | fatalConfig (e : FatalErr)
  | fatalSigner (e : SignerErr)
  | chainPhase (n : Network)
deriving DecidableEq, Repr

/-- The front of main in order: flag validation, then signer construction,
then the chain phase.  The returned list records the chain interactions
performed; no chain interaction happens before validation and signer
construction both succeed. -/
def mainRun (f : Flags) (env : SignerEnv) : MainPhase × List ChainEffect :=
  match mainValidate f with
  | .error e => (.fatalConfig e, [])
  | .ok n =>
      match CreateSigner env f.privateKey f.mnemonic f.hdPath with
      | .error e => (.fatalSigner e, [])
      | .ok _ =>
          (.chainPhase n,
           [.dialL1, .queryChainID, .queryPendingNonce, .dialL2, .runWithdrawer])

/-- The withdraw.WithdrawHelper contract consumed by processWithdrawal,
with one field per interface method, recording the result each method
would return in the current chain state.  The error type is the variant
specific error type. -/
structure WithdrawHelper (ε : Type) where
  isProofFinalized : Except ε Bool
  checkIfProvable : Except ε Unit
  getProvenWithdrawalTime : Except ε Nat
  proveWithdrawal : Except ε Unit
  finalizeWithdrawal : Except ε Unit

/-- Observable steps of one run of processWithdrawal: the three read
queries, and the submission of a prove or finalize transaction. -/
inductive RunAction
  | queryFinalized
  | queryProvable
  | queryProofTime
  | submitProve
  | submitFinalize
deriving DecidableEq, Repr

/-- Outcome of one run of processWithdrawal.  The fatal constructors
correspond to log.Crit (non-zero exit); alreadyFinalized and provenStop
print an informational message and return with status zero; completed is
the successful finalize path. -/
inductive RunOutcome (ε : Type)
  | fatalFinalizedQuery (e : ε)
  | alreadyFinalized
  | fatalNotProvable (e : ε)
  | fatalProofQuery (e : ε)
  | fatalProve (e : ε)
  | provenStop
  | fatalFinalize (e : ε)
  | completed
deriving DecidableEq, Repr

/-- processWithdrawal: query the finalization status and stop with the
already-finalized message if true; check provability and stop fatally if
not provable; query the proof time; if zero, submit the prove transaction
and stop with the proven message; otherwise submit the finalize
transaction.  The returned list records the actions in their order of
execution. -/
def processWithdrawal {ε : Type} (w : WithdrawHelper ε) :
    RunOutcome ε × List RunAction :=
  match w.isProofFinalized with
  | .error e => (.fatalFinalizedQuery e, [.queryFinalized])
  | .ok true => (.alreadyFinalized, [.queryFinalized])
  | .ok false =>
      match w.checkIfProvable with
      | .error e => (.fatalNotProvable e, [.queryFinalized, .queryProvable])
      | .ok _ =>
          match w.getProvenWithdrawalTime with
          | .error e =>
              (.fatalProofQuery e, [.queryFinalized, .queryProvable, .queryProofTime])
          | .ok proofTime =>
              if proofTime = 0 then
                match w.proveWithdrawal with
                | .error e =>
                    (.fatalProve e,
                     [.queryFinalized, .queryProvable, .queryProofTime, .submitProve])
                | .ok _ =>
                    (.provenStop,
                     [.queryFinalized, .queryProvable, .queryProofTime, .submitProve])
              else
                match w.finalizeWithdrawal with
                | .error e =>
                    (.fatalFinalize e,
                     [.queryFinalized, .queryProvable, .queryProofTime, .submitFinalize])
                | .ok _ =>
                    (.completed,
                     [.queryFinalized, .queryProvable, .queryProofTime, .submitFinalize])

/-- The WithdrawHelper presented by the legacy Withdrawer over a chain
state: each field is the embedded method evaluated on the state.  The
prove method succeeds when proof parameter generation succeeds; the
finalize method maps the two stopped outcomes to a nil return as the source
does. -/
def Withdrawer.helper (s : LegacyState) : WithdrawHelper LegacyErr where
  isProofFinalized := .ok (Withdrawer.IsProofFinalized s)
  checkIfProvable := Withdrawer.CheckIfProvable s
  getProvenWithdrawalTime :=
    match Withdrawer.GetProvenWithdrawal s with
    | .error e => .error e
    | .ok rec => .ok rec.timestamp
  proveWithdrawal := if s.proofParamsOk then .ok () else .error .proofParams
  finalizeWithdrawal :=
    match Withdrawer.FinalizeWithdrawal s with
    | .errReceipt e => .error (.receiptErr e)
    | .errProofParams => .error .proofParams
    | _ => .ok ()

/-- The WithdrawHelper presented by the fault-proof FPWithdrawer over a
chain state. -/
def FPWithdrawer.helper (s : FPState) : WithdrawHelper FPErr where
  isProofFinalized := .ok (FPWithdrawer.IsProofFinalized s)
  checkIfProvable := FPWithdrawer.CheckIfProvable s
  getProvenWithdrawalTime := FPWithdrawer.GetProvenWithdrawalTime s
  proveWithdrawal := if s.proofParamsOk then .ok () else .error .proofParams
  finalizeWithdrawal :=
    match FPWithdrawer.FinalizeWithdrawal s with
    | .err e => .error e
    | .builtFinalizeTx => .ok ()

/-- C4: for every withdrawal whose originating L2 block is W and every
anchor-covered L2 block A (legacy: latest output proposal block;
fault-proof: block of the most recently created dispute game), the
provability check fails with the not-provable-yet error exactly when
A < W, and the error carries both block numbers (and, for the legacy
variant, the estimated next-submission wait). -/
theorem claim_C4_anchor_coverage_gate (sl : LegacyState) (sf : FPState)
    (rl rf : Receipt)
    (hl : sl.receipt = .found rl) (hls : rl.status = .successful)
    (hf : sf.receipt = .found rf) (hfs : rf.status = .successful) :
    (Withdrawer.CheckIfProvable sl =
        .error (.notProvableYet sl.latestOutputBlock rl.blockNumber
          (sl.submissionInterval * sl.l2BlockTime)) ↔
      sl.latestOutputBlock < rl.blockNumber) ∧
    (Withdrawer.CheckIfProvable sl = .ok () ↔
      ¬ sl.latestOutputBlock < rl.blockNumber) ∧
    (FPWithdrawer.CheckIfProvable sf =
        .error (.notProvableYet sf.latestGameL2Block rf.blockNumber) ↔
      sf.latestGameL2Block < rf.blockNumber) ∧
    (FPWithdrawer.CheckIfProvable sf = .ok () ↔
      ¬ sf.latestGameL2Block < rf.blockNumber) := by
  have h1 : TxBlock sl.receipt = .ok rl.blockNumber := by
    rw [hl]; simp [TxBlock, hls]
  have h2 : TxBlock sf.receipt = .ok rf.blockNumber := by
    rw [hf]; simp [TxBlock, hfs]
  refine ⟨?_, ?_, ?_, ?_⟩ <;>
    simp only [Withdrawer.CheckIfProvable, FPWithdrawer.CheckIfProvable, h1, h2] <;>
    split_ifs with h <;> simp_all

/-- Concrete legacy state for the C4 witness: latest output block 3,
withdrawal included at block 7. -/
def c4LegacyState : LegacyState where
  l2TxHash := 1
  receipt := .found { status := .successful, blockNumber := 7 }
  msgPassedEvent := none
  headerTime := fun _ => 0
  latestOutputBlock := 3
  submissionInterval := 4
  l2BlockTime := 5
  finalizationPeriodSeconds := 10
  l1HeadNumber := 0
  l1HeadTime := 0
  provenWithdrawals := fun _ => { timestamp := 0, l2OutputIndex := 0 }
  finalizedWithdrawals := fun _ => false
  proofParamsOk := true

/-- Concrete fault-proof state for the C4 witness: latest game block 10,
withdrawal included at block 7. -/
def c4FPState : FPState where
  l2TxHash := 1
  receipt := .found { status := .successful, blockNumber := 7 }
  msgPassedEvent := none
  latestGameL2Block := 10
  provenWithdrawals := fun _ _ => { disputeGameProxy := 0, timestamp := 0 }
  finalizedWithdrawals := fun _ => false
  checkWithdrawal := fun _ _ => true
  optsFrom := 0
  proofParamsOk := true

/-- Witness for C4 at concrete states: the legacy check fails with the
carried block numbers when the anchor is behind, and the fault-proof check
succeeds when the anchor covers the withdrawal. -/
theorem claim_C4_anchor_coverage_gate_witness :
    Withdrawer.CheckIfProvable c4LegacyState = .error (.notProvableYet 3 7 20) ∧
    FPWithdrawer.CheckIfProvable c4FPState = .ok () := by
  have h := claim_C4_anchor_coverage_gate c4LegacyState c4FPState
    { status := .successful, blockNumber := 7 }
    { status := .successful, blockNumber := 7 } rfl rfl rfl rfl
  exact ⟨h.1.mpr (by decide), h.2.2.2.mpr (by decide)⟩

/-- C5: for every withdrawal whose L2 receipt exists with non-success
status, TxBlock returns the unsuccessful-receipt error rather than a block
number, a run submits no prove or finalize transaction, and when the run
reaches classification it stops fatally with the wrapped
execution-failed error. -/
theorem claim_C5_execution_failed (s : LegacyState) (r : Receipt)
    (hr : s.receipt = .found r) (hst : r.status ≠ .successful) :
    TxBlock s.receipt = .error .unsuccessfulReceipt ∧
    RunAction.submitProve ∉ (processWithdrawal (Withdrawer.helper s)).2 ∧
    RunAction.submitFinalize ∉ (processWithdrawal (Withdrawer.helper s)).2 ∧
    (Withdrawer.IsProofFinalized s = false →
      processWithdrawal (Withdrawer.helper s) =
        (.fatalNotProvable (.queryWithdrawalTxBlock .unsuccessfulReceipt),
         [.queryFinalized, .queryProvable])) := by
  have htx : TxBlock s.receipt = .error .unsuccessfulReceipt := by
    rw [hr]; simp [TxBlock, hst]
  have hcp : Withdrawer.CheckIfProvable s =
      .error (.queryWithdrawalTxBlock .unsuccessfulReceipt) := by
    simp [Withdrawer.CheckIfProvable, htx]
  by_cases hb : Withdrawer.IsProofFinalized s <;>
    refine ⟨htx, ?_, ?_, ?_⟩ <;>
      simp [processWithdrawal, Withdrawer.helper, hb, hcp]

/-- Concrete legacy state for the C5 witness: the receipt exists with
failed status. -/
def c5LegacyState : LegacyState where
  l2TxHash := 1
  receipt := .found { status := .failed, blockNumber := 7 }
  msgPassedEvent := none
  headerTime := fun _ => 0
  latestOutputBlock := 10
  submissionInterval := 4
  l2BlockTime := 5
  finalizationPeriodSeconds := 10
  l1HeadNumber := 0
  l1HeadTime := 0
  provenWithdrawals := fun _ => { timestamp := 0, l2OutputIndex := 0 }
  finalizedWithdrawals := fun _ => false
  proofParamsOk := true

/-- Witness for C5 at a concrete state with a failed receipt: the run
stops fatally at classification with the wrapped execution-failed error
and submits nothing. -/
theorem claim_C5_execution_failed_witness :
    TxBlock c5LegacyState.receipt = .error .unsuccessfulReceipt ∧
    processWithdrawal (Withdrawer.helper c5LegacyState) =
      (.fatalNotProvable (.queryWithdrawalTxBlock .unsuccessfulReceipt),
       [.queryFinalized, .queryProvable]) := by
  have h := claim_C5_execution_failed c5LegacyState
    { status := .failed, blockNumber := 7 } rfl (by decide)
  exact ⟨h.1, h.2.2.2 rfl⟩

/-- C8: whenever the finalization-record query reports true at the start of
a run, processWithdrawal prints the already-finalized message and stops
with success having performed only that query, so no prove or finalize
transaction is submitted; and in every run the finalized query is the
first action performed, before the provability check and before any
transaction construction. -/
theorem claim_C8_already_finalized_short_circuit {ε : Type}
    (w : WithdrawHelper ε) :
    (processWithdrawal w).2.head? = some .queryFinalized ∧
    (w.isProofFinalized = .ok true →
      processWithdrawal w = (.alreadyFinalized, [.queryFinalized])) := by
  constructor
  · unfold processWithdrawal
    repeat' split
    all_goals rfl
  · intro h
    simp [processWithdrawal, h]

/-- Concrete fault-proof state for the C8 witness: the finalization record
reported for the run is true. -/
def c8FPState : FPState where
  l2TxHash := 1
  receipt := .found { status := .successful, blockNumber := 7 }
  msgPassedEvent := none
  latestGameL2Block := 10
  provenWithdrawals := fun _ _ => { disputeGameProxy := 0, timestamp := 0 }
  finalizedWithdrawals := fun _ => true
  checkWithdrawal := fun _ _ => true
  optsFrom := 0
  proofParamsOk := true

/-- Witness for C8 at a concrete fault-proof run whose finalization query
reports true: the run stops after that single query with the
already-finalized outcome. -/
theorem claim_C8_already_finalized_short_circuit_witness :
    processWithdrawal (FPWithdrawer.helper c8FPState) =
      (.alreadyFinalized, [.queryFinalized]) :=
  (claim_C8_already_finalized_short_circuit (FPWithdrawer.helper c8FPState)).2 rfl

/-- Unfolding equation for one iteration of the confirmation poll loop. -/
theorem waitForConfirmation_step (lookup : Nat → ReceiptLookup) (c : Ctx) (t : Nat) :
    WaitForConfirmation lookup c t =
      match lookup t with
      | .notFound =>
          if c.doneAt ≤ t + 5 then .ctxDone c.ctxErr
          else WaitForConfirmation lookup c (t + 5)
      | .rpcFailure code => .lookupFailure code
      | .found r =>
          if r.status ≠ .successful then .unsuccessfulStatus
          else .confirmed := by
  rw [WaitForConfirmation]
  rcases lookup t with _ | code | r
  · by_cases h : c.doneAt ≤ t + 5 <;> simp [h]
  · rfl
  · rfl

/-- If every poll of the loop reports not-found, the loop ends with the
context error once the context is done. -/
theorem waitForConfirmation_all_notFound (lookup : Nat → ReceiptLookup) (c : Ctx)
    (hall : ∀ u, lookup u = .notFound) (t : Nat) :
    WaitForConfirmation lookup c t = .ctxDone c.ctxErr := by
  have H : ∀ m t, c.doneAt - t ≤ m →
      WaitForConfirmation lookup c t = .ctxDone c.ctxErr := by
    intro m
    induction m with
    | zero =>
      intro t ht
      rw [waitForConfirmation_step, hall t]
      simp only [if_pos (show c.doneAt ≤ t + 5 by omega)]
    | succ m ih =>
      intro t ht
      rw [waitForConfirmation_step, hall t]
      by_cases h5 : c.doneAt ≤ t + 5
      · simp only [if_pos h5]
      · simp only [if_neg h5]
        exact ih (t + 5) (by omega)
  exact H (c.doneAt - t) t le_rfl

/-- C3: in every run of the confirmation poll loop, a not-found lookup
never terminates the loop and is retried after the fixed five second
interval; a successful receipt returns success; a failed receipt returns
the unsuccessful-status error; any other lookup error is returned
immediately without retry; with the caller-supplied five minute deadline
the wait is bounded, ending in the context error when no receipt ever
appears; and the surfaced context error distinguishes cancellation from
deadline expiry. -/
theorem claim_C3_confirmation_poll_loop (lookup : Nat → ReceiptLookup)
    (c : Ctx) (t : Nat) :
    (lookup t = .notFound → ¬ c.doneAt ≤ t + 5 →
      WaitForConfirmation lookup c t = WaitForConfirmation lookup c (t + 5)) ∧
    (lookup t = .notFound → c.doneAt ≤ t + 5 →
      WaitForConfirmation lookup c t = .ctxDone c.ctxErr) ∧
    (∀ r, lookup t = .found r → r.status = .successful →
      WaitForConfirmation lookup c t = .confirmed) ∧
    (∀ r, lookup t = .found r → r.status ≠ .successful →
      WaitForConfirmation lookup c t = .unsuccessfulStatus) ∧
    (∀ code, lookup t = .rpcFailure code →
      WaitForConfirmation lookup c t = .lookupFailure code) ∧
    ((∀ u, lookup u = .notFound) →
      WaitForConfirmation lookup c t = .ctxDone c.ctxErr) ∧
    (∀ pc, (∀ u, lookup u = .notFound) →
      submitAndWait lookup pc t =
        .ctxDone (Ctx.ctxErr { deadline := t + confirmDeadlineSeconds,
                               cancelAt := pc })) ∧
    (∀ tc, c.cancelAt = some tc → tc < c.deadline → c.ctxErr = .canceled) ∧
    (c.cancelAt = none → c.ctxErr = .deadlineExceeded) := by
  refine ⟨?_, ?_, ?_, ?_, ?_, ?_, ?_, ?_, ?_⟩
  · intro hl h5
    rw [waitForConfirmation_step, hl, if_neg h5]
  · intro hl h5
    rw [waitForConfirmation_step, hl, if_pos h5]
  · intro r hl hs
    rw [waitForConfirmation_step, hl]
    simp [hs]
  · intro r hl hs
    rw [waitForConfirmation_step, hl]
    simp [hs]
  · intro code hl
    rw [waitForConfirmation_step, hl]
  · intro hall
    exact waitForConfirmation_all_notFound lookup c hall t
  · intro pc hall
    exact waitForConfirmation_all_notFound lookup _ hall t
  · intro tc htc hlt
    simp [Ctx.ctxErr, htc, hlt]
  · intro hnone
    simp [Ctx.ctxErr, hnone]

/-- Witness for C3 at a concrete lookup trace that reports not-found for
the first poll and a successful receipt at the second, under the five
minute deadline with no cancellation, and a concrete all-not-found trace
under a cancellation that precedes the deadline. -/
theorem claim_C3_confirmation_poll_loop_witness :
    WaitForConfirmation (fun u => if u < 5 then .notFound else .found { status := .successful, blockNumber := 9 }) { deadline := 300, cancelAt := none } 0 =
      WaitForConfirmation (fun u => if u < 5 then .notFound else .found { status := .successful, blockNumber := 9 }) { deadline := 300, cancelAt := none } 5 ∧
    WaitForConfirmation (fun u => if u < 5 then .notFound else .found { status := .successful, blockNumber := 9 }) { deadline := 300, cancelAt := none } 5 = .confirmed ∧
    submitAndWait (fun _ => .notFound) (some 60) 0 = .ctxDone .canceled := by
  have h0 := claim_C3_confirmation_poll_loop
    (fun u => if u < 5 then .notFound else .found { status := .successful, blockNumber := 9 })
    { deadline := 300, cancelAt := none } 0
  have h5 := claim_C3_confirmation_poll_loop
    (fun u => if u < 5 then .notFound else .found { status := .successful, blockNumber := 9 })
    { deadline := 300, cancelAt := none } 5
  have hc := claim_C3_confirmation_poll_loop (fun _ => .notFound)
    { deadline := 300, cancelAt := some 60 } 0
  refine ⟨h0.1 (by decide) (by simp [Ctx.doneAt]), ?_, ?_⟩
  · exact h5.2.2.1 { status := .successful, blockNumber := 9 } (by decide) rfl
  · have := hc.2.2.2.2.2.2.1 (some 60) (fun _ => rfl)
    simpa [Ctx.ctxErr] using this

/-- C10: the confirmation poll loop returns success only when some poll
actually observed a receipt for the transaction with success status; every
other constructor of the result corresponds to a non-nil error return
(context error, lookup error, or the unsuccessful-status error). -/
theorem claim_C10_confirmation_soundness (lookup : Nat → ReceiptLookup)
    (c : Ctx) (t : Nat)
    (h : WaitForConfirmation lookup c t = .confirmed) :
    (∃ k r, lookup (t + 5 * k) = .found r ∧ r.status = .successful) ∧
    (∀ res : ConfirmResult, res ≠ .confirmed →
      (∃ e, res = .ctxDone e) ∨ (∃ code, res = .lookupFailure code) ∨
        res = .unsuccessfulStatus) := by
  constructor
  · have H : ∀ m t, c.doneAt - t ≤ m →
        WaitForConfirmation lookup c t = .confirmed →
        ∃ k r, lookup (t + 5 * k) = .found r ∧ r.status = .successful := by
      intro m
      induction m with
      | zero =>
        intro t ht hc
        rw [waitForConfirmation_step] at hc
        rcases hl : lookup t with _ | code | r <;> rw [hl] at hc
        · rw [if_pos (show c.doneAt ≤ t + 5 by omega)] at hc
          exact absurd hc (by simp)
        · exact absurd hc (by simp)
        · by_cases hs : r.status = .successful
          · exact ⟨0, r, by simpa using hl, hs⟩
          · simp [hs] at hc
      | succ m ih =>
        intro t ht hc
        rw [waitForConfirmation_step] at hc
        rcases hl : lookup t with _ | code | r <;> rw [hl] at hc
        · by_cases h5 : c.doneAt ≤ t + 5
          · rw [if_pos h5] at hc
            exact absurd hc (by simp)
          · rw [if_neg h5] at hc
            obtain ⟨k, r, hk, hs⟩ := ih (t + 5) (by omega) hc
            exact ⟨k + 1, r, by rw [show t + 5 * (k + 1) = t + 5 + 5 * k by ring]; exact hk, hs⟩
        · exact absurd hc (by simp)
        · by_cases hs : r.status = .successful
          · exact ⟨0, r, by simpa using hl, hs⟩
          · simp [hs] at hc
    exact H (c.doneAt - t) t le_rfl h
  · intro res hres
    cases res with
    | confirmed => exact absurd rfl hres
    | ctxDone e => exact .inl ⟨e, rfl⟩
    | lookupFailure code => exact .inr (.inl ⟨code, rfl⟩)
    | unsuccessfulStatus => exact .inr (.inr rfl)

/-- Witness for C10 at a concrete lookup trace whose second poll returns a
successful receipt. -/
theorem claim_C10_confirmation_soundness_witness :
    ∃ k r, (fun u => if u < 5 then ReceiptLookup.notFound else ReceiptLookup.found { status := .successful, blockNumber := 4 }) (0 + 5 * k) = .found r ∧
      r.status = .successful := by
  have hrun : WaitForConfirmation
      (fun u => if u < 5 then ReceiptLookup.notFound else ReceiptLookup.found { status := .successful, blockNumber := 4 })
      { deadline := 300, cancelAt := none } 0 = .confirmed := by
    rw [waitForConfirmation_step]
    simp only [if_pos (by decide : (0:Nat) < 5)]
    rw [if_neg (by simp [Ctx.doneAt])]
    rw [waitForConfirmation_step]
    norm_num
  exact (claim_C10_confirmation_soundness _ _ 0 hrun).1

/-- C6: the fault-proof proof record lookup and the finalize-eligibility
check are both keyed by the pair of the withdrawal fingerprint and the
submitter address taken from the From field of the transactor options; in
particular a proof record present only under submitter S is not visible to
a GetProvenWithdrawalTime query performed under a different submitter, and
FinalizeWithdrawal consults the portal check exactly at the pair keyed by
its own submitter. -/
theorem claim_C6_submitter_binding (s : FPState) (ev : MessagePassedEvent)
    (r : Receipt) (S : Nat)
    (hr : s.receipt = .found r) (hev : s.msgPassedEvent = some ev)
    (hne : s.optsFrom ≠ S)
    (hsupp : ∀ h a, ¬ (h = withdrawalHash ev ∧ a = S) →
      (s.provenWithdrawals h a).timestamp = 0) :
    FPWithdrawer.GetProvenWithdrawalTime s =
      .ok (s.provenWithdrawals (withdrawalHash ev) s.optsFrom).timestamp ∧
    FPWithdrawer.GetProvenWithdrawalTime s = .ok 0 ∧
    FPWithdrawer.FinalizeWithdrawal s =
      (if s.checkWithdrawal (withdrawalHash ev) s.optsFrom = false then
        .err .checkWithdrawalReverted
       else if s.proofParamsOk then .builtFinalizeTx else .err .proofParams) := by
  have hhash : FPWithdrawer.getWithdrawalHash s = .ok (withdrawalHash ev) := by
    rw [FPWithdrawer.getWithdrawalHash, hr, hev]
  have hzero : (s.provenWithdrawals (withdrawalHash ev) s.optsFrom).timestamp = 0 :=
    hsupp _ _ (fun hpair => hne hpair.2)
  refine ⟨?_, ?_, ?_⟩
  · rw [FPWithdrawer.GetProvenWithdrawalTime, hhash]
  · rw [FPWithdrawer.GetProvenWithdrawalTime, hhash]
    show Except.ok (s.provenWithdrawals (withdrawalHash ev) s.optsFrom).timestamp =
      Except.ok 0
    rw [hzero]
  · rw [FPWithdrawer.FinalizeWithdrawal, hhash]

/-- Message-passed event used by the C6 witness. -/
def c6Ev : MessagePassedEvent where
  nonce := 0
  sender := 0
  target := 0
  value := 0
  gasLimit := 0
  msgData := []

/-- Concrete fault-proof state for the C6 witness: a proof record with
timestamp 77 is present only under submitter 5, and the run is performed
under submitter 8. -/
def c6FPState : FPState where
  l2TxHash := 1
  receipt := .found { status := .successful, blockNumber := 7 }
  msgPassedEvent := some c6Ev
  latestGameL2Block := 10
  provenWithdrawals := fun h a =>
    if h = withdrawalHash c6Ev ∧ a = 5 then { disputeGameProxy := 3, timestamp := 77 }
    else { disputeGameProxy := 0, timestamp := 0 }
  finalizedWithdrawals := fun _ => false
  checkWithdrawal := fun _ _ => false
  optsFrom := 8
  proofParamsOk := true

/-- Witness for C6 at the concrete state: the proof written under
submitter 5 is invisible to the query under submitter 8, and finalize
fails at the portal check keyed by submitter 8. -/
theorem claim_C6_submitter_binding_witness :
    FPWithdrawer.GetProvenWithdrawalTime c6FPState = .ok 0 ∧
    FPWithdrawer.FinalizeWithdrawal c6FPState = .err .checkWithdrawalReverted := by
  have h := claim_C6_submitter_binding c6FPState c6Ev
    { status := .successful, blockNumber := 7 } 5 rfl rfl (by decide)
    (by
      intro hh a hna
      show (if hh = withdrawalHash c6Ev ∧ a = 5 then
          ({ disputeGameProxy := 3, timestamp := 77 } : FPProvenRecord)
        else { disputeGameProxy := 0, timestamp := 0 }).timestamp = 0
      rw [if_neg hna])
  refine ⟨h.2.1, ?_⟩
  have h3 := h.2.2
  have hcw : c6FPState.checkWithdrawal (withdrawalHash c6Ev) c6FPState.optsFrom = false :=
    rfl
  rwa [if_pos hcw] at h3

/-- C9: CreateSigner checks the signing methods in the fixed order private
key, then mnemonic, then hardware wallet: with a non-empty private key the
result is independent of the mnemonic, the derivation path and every
collaborator other than the private key parser; with an empty private key
an unparsable derivation path fails with the path error for every
mnemonic; and with a non-empty mnemonic the result is independent of the
ledger collaborators. -/
theorem claim_C9_signer_precedence (env env2 : SignerEnv)
    (pk m m2 hd hd2 : String) :
    (pk ≠ "" → env.hexToECDSA = env2.hexToECDSA →
      CreateSigner env pk m hd = CreateSigner env2 pk m2 hd2) ∧
    (pk = "" → env.parseDerivationPath hd = none →
      CreateSigner env pk m hd = .error .parseHdPath) ∧
    (pk = "" → m ≠ "" → env.parseDerivationPath = env2.parseDerivationPath →
      env.deriveFromMnemonic = env2.deriveFromMnemonic →
      CreateSigner env pk m hd = CreateSigner env2 pk m hd) := by
  refine ⟨?_, ?_, ?_⟩
  · intro hpk hhex
    rw [CreateSigner, CreateSigner, if_pos hpk, if_pos hpk, hhex]
  · intro hpk hpath
    rw [CreateSigner, if_neg (by simp [hpk]), hpath]
  · intro hpk hm hpath hder
    rw [CreateSigner, CreateSigner, if_neg (by simp [hpk]), if_neg (by simp [hpk]),
      hpath, hder]
    rcases env2.parseDerivationPath hd with _ | path
    · rfl
    · simp only [if_pos hm]

/-- Witness for C9: with a non-empty private key the mnemonic, path and
ledger collaborators do not affect the result, and with an empty private
key an unparsable path fails with the path error. -/
theorem claim_C9_signer_precedence_witness :
    CreateSigner
      { hexToECDSA := fun _ => some 11, parseDerivationPath := fun _ => none,
        deriveFromMnemonic := fun _ _ => none, ledgerHubOk := false,
        ledgerWallets := [], walletOpen := fun _ => false,
        walletDerive := fun _ _ => none } "ab" "x" "bad" =
      CreateSigner
        { hexToECDSA := fun _ => some 11, parseDerivationPath := fun _ => some [1],
          deriveFromMnemonic := fun _ _ => some 9, ledgerHubOk := true,
          ledgerWallets := [2], walletOpen := fun _ => true,
          walletDerive := fun _ _ => some 4 } "ab" "y" "good" ∧
    CreateSigner
      { hexToECDSA := fun _ => some 11, parseDerivationPath := fun _ => none,
        deriveFromMnemonic := fun _ _ => some 9, ledgerHubOk := true,
        ledgerWallets := [2], walletOpen := fun _ => true,
        walletDerive := fun _ _ => some 4 } "" "y" "bad" = .error .parseHdPath := by
  constructor
  · exact (claim_C9_signer_precedence _ _ "ab" "x" "y" "bad" "good").1
      (by decide) rfl
  · exact (claim_C9_signer_precedence _
      { hexToECDSA := fun _ => some 11, parseDerivationPath := fun _ => none,
        deriveFromMnemonic := fun _ _ => some 9, ledgerHubOk := true,
        ledgerWallets := [2], walletOpen := fun _ => true,
        walletDerive := fun _ _ => some 4 } "" "y" "y" "bad" "bad").2.1 rfl rfl

/-- The validation phase of main only succeeds when exactly one signing
method is selected. -/
theorem mainValidate_ok_signerCount (f : Flags) (n : Network)
    (h : mainValidate f = .ok n) :
    signerOptionsCount f.privateKey f.ledger f.mnemonic = 1 := by
  unfold mainValidate at h
  repeat' split at h
  all_goals first
    | omega
    | simp at h

/-- C7: for every combination of the private-key, ledger and mnemonic
inputs, unless exactly one of the three is set the program terminates
fatally during flag validation, with no chain interaction performed. -/
theorem claim_C7_signer_exclusivity (f : Flags) (env : SignerEnv)
    (h : signerOptionsCount f.privateKey f.ledger f.mnemonic ≠ 1) :
    (∃ e, mainValidate f = .error e) ∧
    (∃ e, (mainRun f env).1 = .fatalConfig e) ∧
    (mainRun f env).2 = [] := by
  have hv : ∃ e, mainValidate f = .error e := by
    rcases hm : mainValidate f with e | n
    · exact ⟨e, rfl⟩
    · exact absurd (mainValidate_ok_signerCount f n hm) h
  obtain ⟨e, he⟩ := hv
  exact ⟨⟨e, he⟩, ⟨e, by rw [mainRun, he]⟩, by rw [mainRun, he]⟩

/-- Signer environment used by the C7 witness. -/
def c7SignerEnv : SignerEnv where
  hexToECDSA := fun _ => some 1
  parseDerivationPath := fun _ => some [1]
  deriveFromMnemonic := fun _ _ => some 2
  ledgerHubOk := true
  ledgerWallets := [3]
  walletOpen := fun _ => true
  walletDerive := fun _ _ => some 4

/-- Flags used by the C7 witness: a valid network and both the private key
and the mnemonic set, so two signing methods are selected. -/
def c7Flags : Flags where
  rpc := "http://l1"
  network := "base-mainnet"
  l2Rpc := ""
  faultProofs := false
  portalAddress := ""
  l2ooAddress := ""
  dgfAddress := ""
  withdrawal := "0xabc"
  privateKey := "deadbeef"
  ledger := false
  mnemonic := "test test"
  hdPath := "m/44"

/-- Witness for C7 at concrete flags selecting two signing methods: the
run is fatal during validation and performs no chain interaction. -/
theorem claim_C7_signer_exclusivity_witness :
    (∃ e, mainValidate c7Flags = .error e) ∧
    (mainRun c7Flags c7SignerEnv).2 = [] := by
  have h := claim_C7_signer_exclusivity c7Flags c7SignerEnv (by decide)
  exact ⟨h.1, h.2.2⟩

/-- Message-passed event used by the C1 states. -/
def c1Ev : MessagePassedEvent where
  nonce := 0
  sender := 0
  target := 0
  value := 0
  gasLimit := 0
  msgData := []

/-- C1 counterexample state: the withdrawal was included at L2 block 5
whose header time is 100, the portal proof record carries timestamp 200,
the finalization period is 10, and the L1 head time is 150. -/
def c1State : LegacyState where
  l2TxHash := 1
  receipt := .found { status := .successful, blockNumber := 5 }
  msgPassedEvent := some c1Ev
  headerTime := fun _ => 100
  latestOutputBlock := 10
  submissionInterval := 1
  l2BlockTime := 2
  finalizationPeriodSeconds := 10
  l1HeadNumber := 50
  l1HeadTime := 150
  provenWithdrawals := fun _ => { timestamp := 200, l2OutputIndex := 0 }
  finalizedWithdrawals := fun _ => false
  proofParamsOk := true

/-- C1 boundary state: withdrawal block time 100, proof timestamp 100,
period 10, and the L1 head time exactly 110. -/
def c1BoundaryState : LegacyState where
  l2TxHash := 1
  receipt := .found { status := .successful, blockNumber := 5 }
  msgPassedEvent := some c1Ev
  headerTime := fun _ => 100
  latestOutputBlock := 10
  submissionInterval := 1
  l2BlockTime := 2
  finalizationPeriodSeconds := 10
  l1HeadNumber := 50
  l1HeadTime := 110
  provenWithdrawals := fun _ => { timestamp := 100, l2OutputIndex := 0 }
  finalizedWithdrawals := fun _ => false
  proofParamsOk := true

/-- C1 counterexample: the legacy finalize gate does not implement the
claimed rule over the prove-confirmation timestamp T.  At c1State the
current L1 time 150 is below T plus the period (200 plus 10), so the claim
requires a time-lock failure, yet the operation builds the finalize
transaction; at c1BoundaryState the current L1 time 110 equals T plus the
period (100 plus 10), so the claim requires the build to succeed, yet the
operation stops at the time-lock message and returns nil rather than an
error. -/
theorem claim_C1_time_lock_counterexample :
    (c1State.l1HeadTime <
        (c1State.provenWithdrawals (withdrawalHash c1Ev)).timestamp +
          c1State.finalizationPeriodSeconds ∧
      Withdrawer.FinalizeWithdrawal c1State = .builtFinalizeTx) ∧
    ((c1BoundaryState.provenWithdrawals (withdrawalHash c1Ev)).timestamp +
          c1BoundaryState.finalizationPeriodSeconds ≤ c1BoundaryState.l1HeadTime ∧
      Withdrawer.FinalizeWithdrawal c1BoundaryState =
        .stoppedTimeLock 5 100 10 100 50 110 10) := by
  decide

/-- C1 amended: the legacy finalize gate compares the L1 head time against
the timestamp of the L2 block that included the withdrawal (not the
prove-confirmation timestamp): given a successful receipt, anchor coverage
and successful parameter retrieval, the operation stops at the time-lock
message (printing and returning nil, not an error) whenever the L1 head
time is at most the withdrawal block time plus the period, and builds the
finalize transaction once the L1 head time strictly exceeds it; the method
form FinalizeWithdrawal agrees with CompleteWithdrawal at the
oracle-provided period. -/
theorem claim_C1_time_lock_amended (s : LegacyState) (r : Receipt) (P : Nat)
    (hr : s.receipt = .found r) (hst : r.status = .successful)
    (hcov : ¬ s.latestOutputBlock < r.blockNumber)
    (hpp : s.proofParamsOk = true) :
    (s.l1HeadTime ≤ s.headerTime r.blockNumber + P →
      CompleteWithdrawal s P =
        .stoppedTimeLock r.blockNumber (s.headerTime r.blockNumber)
          s.latestOutputBlock (s.headerTime s.latestOutputBlock)
          s.l1HeadNumber s.l1HeadTime P) ∧
    (s.headerTime r.blockNumber + P < s.l1HeadTime →
      CompleteWithdrawal s P = .builtFinalizeTx) ∧
    Withdrawer.FinalizeWithdrawal s = CompleteWithdrawal s s.finalizationPeriodSeconds := by
  refine ⟨?_, ?_, rfl⟩
  · intro hlock
    rw [CompleteWithdrawal, hr]
    simp only [hst]
    rw [if_neg (by simp), if_neg hcov, if_pos hlock]
  · intro hlock
    rw [CompleteWithdrawal, hr]
    simp only [hst]
    rw [if_neg (by simp), if_neg hcov, if_neg (by omega), if_pos hpp]

/-- Witness for the amended C1 at the two concrete states: past the gate
the finalize transaction is built, and at the boundary the operation stops
at the time-lock message. -/
theorem claim_C1_time_lock_amended_witness :
    CompleteWithdrawal c1State 10 = .builtFinalizeTx ∧
    CompleteWithdrawal c1BoundaryState 10 =
      .stoppedTimeLock 5 100 10 100 50 110 10 :=
  ⟨(claim_C1_time_lock_amended c1State { status := .successful, blockNumber := 5 } 10
      rfl rfl (by decide) rfl).2.1 (by decide),
   (claim_C1_time_lock_amended c1BoundaryState { status := .successful, blockNumber := 5 } 10
      rfl rfl (by decide) rfl).1 (by decide)⟩

/-- Modelled from the spec: the already-finalized query the specification
describes, reading the Finalization Record under the withdrawal
fingerprint derived from the message-passed event fields. -/
def specFinalizedRecordQuery (finalizedWithdrawals : Nat → Bool)
    (ev : MessagePassedEvent) : Bool :=
  finalizedWithdrawals (withdrawalHash ev)

/-- Message-passed event of the C2 failing input; its fingerprint is 0. -/
def c2Ev : MessagePassedEvent where
  nonce := 0
  sender := 0
  target := 0
  value := 0
  gasLimit := 0
  msgData := []

/-- C2 failing input, legacy variant: the Finalization Record is true
exactly at the withdrawal fingerprint, and the L2 transaction hash 1
differs from the fingerprint. -/
def c2LegacyState : LegacyState where
  l2TxHash := 1
  receipt := .found { status := .successful, blockNumber := 5 }
  msgPassedEvent := some c2Ev
  headerTime := fun _ => 100
  latestOutputBlock := 10
  submissionInterval := 1
  l2BlockTime := 2
  finalizationPeriodSeconds := 10
  l1HeadNumber := 50
  l1HeadTime := 150
  provenWithdrawals := fun _ => { timestamp := 0, l2OutputIndex := 0 }
  finalizedWithdrawals := fun h => h == withdrawalHash c2Ev
  proofParamsOk := true

/-- C2 failing input, fault-proof variant, with the same record layout. -/
def c2FPState : FPState where
  l2TxHash := 1
  receipt := .found { status := .successful, blockNumber := 5 }
  msgPassedEvent := some c2Ev
  latestGameL2Block := 10
  provenWithdrawals := fun _ _ => { disputeGameProxy := 0, timestamp := 0 }
  finalizedWithdrawals := fun h => h == withdrawalHash c2Ev
  checkWithdrawal := fun _ _ => true
  optsFrom := 0
  proofParamsOk := true

/-- C2 evaluated at the failing input: in both variants the code passes
the L2 transaction hash, not the withdrawal fingerprint, to the
Finalization Record query, so with the record true at the fingerprint the
code still reports not finalized. -/
theorem claim_C2_finalized_record_key :
    withdrawalHash c2Ev ≠ c2LegacyState.l2TxHash ∧
    specFinalizedRecordQuery c2LegacyState.finalizedWithdrawals c2Ev = true ∧
    Withdrawer.IsProofFinalized c2LegacyState = false ∧
    c2FPState.msgPassedEvent = some c2Ev ∧
    specFinalizedRecordQuery c2FPState.finalizedWithdrawals c2Ev = true ∧
    FPWithdrawer.IsProofFinalized c2FPState = false := by
  decide
